import Mathlib

/-!
# Shallow embedding of `repo_zip_to_txt.py`

This file embeds the core of the `repo-to-txt` tool
(`src/repo_zip_to_txt.py`, function `generate_repository_description`)
as executable Lean definitions and proves/refutes the frozen claims
about it.

Conventions of the embedding:
* File bytes are `Nat` values `< 256` (`List Nat`).
* The filesystem is environment data.  A directory tree is a `Dir`;
  child order in a `DirList` is the order in which the OS lists the
  entries (`os.scandir` order), which the script never controls.
* Per-file I/O failures (`os.path.getsize`, opening for the binary
  probe, opening for the text read) are modelled by three boolean
  flags on `FileData`; the exact exception message text is environment
  data and is modelled by a fixed placeholder inside the notice
  strings.
* Crucially, line 139 of the source, `items_to_walk =
  list(os.walk(repo_root_in_temp, topdown=True))`, materialises the
  whole recursive walk *before* the processing loop runs, so the
  in-place mutations `dirs[:] = []` (line 146), `dirs[:] = [...]`
  (line 168) and `dirs.sort()` (line 183) cannot influence which
  directories are visited or in which order.  The faithful embedding
  of `items_to_walk` is therefore the full pre-order listing of the
  tree in OS listing order (`walkDir` below), and the per-entry
  processing (`stepEntry`) reads each entry's pristine `dirnames` /
  `filenames` lists.
-/

namespace RepoToTxt

/-- Per-file environment data: the raw byte contents plus flags saying
whether the OS raises at each of the three I/O points the script hits
per file: `os.path.getsize` (line 223), opening for the binary probe
(line 239), opening for the text read (line 262). -/
structure FileData where
  contents : List Nat
  sizeErr : Bool := false
  openErr : Bool := false
  readErr : Bool := false
deriving DecidableEq, Repr

/-- The Unicode replacement character U+FFFD, inserted by Python's
`errors='replace'` decoding mode. -/
def replChar : Char := Char.ofNat 0xFFFD

/-- Is `b` a UTF-8 continuation byte (`0x80..0xBF`)? -/
def isCont (b : Nat) : Bool := decide (0x80 ≤ b) && decide (b ≤ 0xBF)

/-- Second-byte constraint for a three-byte UTF-8 sequence with lead
byte `b` (excludes overlong encodings and surrogates, as CPython's
strict utf-8 codec does). -/
def cont3ok (b b2 : Nat) : Bool :=
  if b == 0xE0 then decide (0xA0 ≤ b2) && decide (b2 ≤ 0xBF)
  else if b == 0xED then decide (0x80 ≤ b2) && decide (b2 ≤ 0x9F)
  else isCont b2

/-- Second-byte constraint for a four-byte UTF-8 sequence with lead
byte `b` (excludes overlong encodings and code points above U+10FFFF). -/
def cont4ok (b b2 : Nat) : Bool :=
  if b == 0xF0 then decide (0x90 ≤ b2) && decide (b2 ≤ 0xBF)
  else if b == 0xF4 then decide (0x80 ≤ b2) && decide (b2 ≤ 0x8F)
  else isCont b2

/-- Model of CPython's `utf-8` codec with `errors='replace'`: returns
the decoded characters together with a flag recording whether any
replacement was performed.  The flag is `false` exactly when the bytes
are valid UTF-8, i.e. when a *strict* decode (`errors='strict'`) would
have succeeded with the same characters; so `(utf8DecodeR bs).2 = false`
is the embedding of "`bs` decodes as valid UTF-8".  On an error the
codec consumes the maximal valid subpart (lead byte plus the valid
continuation bytes seen so far) and emits one U+FFFD.

Fuel-based: every recursive call consumes at least one byte and one
unit of fuel, so fuel `bs.length + 1` (used by `utf8DecodeR` below)
never runs out; structural recursion on the fuel keeps the function
kernel-computable. -/
def utf8DecodeRF : Nat → List Nat → List Char × Bool
  | 0, _ => ([], false)
  | _ + 1, [] => ([], false)
  | n + 1, b :: rest =>
    if b ≤ 0x7F then
      let p := utf8DecodeRF n rest
      (Char.ofNat b :: p.1, p.2)
    else if decide (0xC2 ≤ b) && decide (b ≤ 0xDF) then
      match rest with
      | [] => ([replChar], true)
      | b2 :: rest2 =>
        if isCont b2 then
          let p := utf8DecodeRF n rest2
          (Char.ofNat ((b - 0xC0) * 0x40 + (b2 - 0x80)) :: p.1, p.2)
        else
          let p := utf8DecodeRF n rest
          (replChar :: p.1, true)
    else if decide (0xE0 ≤ b) && decide (b ≤ 0xEF) then
      match rest with
      | [] => ([replChar], true)
      | b2 :: rest2 =>
        if cont3ok b b2 then
          match rest2 with
          | [] => ([replChar], true)
          | b3 :: rest3 =>
            if isCont b3 then
              let p := utf8DecodeRF n rest3
              (Char.ofNat ((b - 0xE0) * 0x1000 + (b2 - 0x80) * 0x40 + (b3 - 0x80)) :: p.1, p.2)
            else
              let p := utf8DecodeRF n rest2
              (replChar :: p.1, true)
        else
          let p := utf8DecodeRF n rest
          (replChar :: p.1, true)
    else if decide (0xF0 ≤ b) && decide (b ≤ 0xF4) then
      match rest with
      | [] => ([replChar], true)
      | b2 :: rest2 =>
        if cont4ok b b2 then
          match rest2 with
          | [] => ([replChar], true)
          | b3 :: rest3 =>
            if isCont b3 then
              match rest3 with
              | [] => ([replChar], true)
              | b4 :: rest4 =>
                if isCont b4 then
                  let p := utf8DecodeRF n rest4
                  (Char.ofNat ((b - 0xF0) * 0x40000 + (b2 - 0x80) * 0x1000 +
                      (b3 - 0x80) * 0x40 + (b4 - 0x80)) :: p.1, p.2)
                else
                  let p := utf8DecodeRF n rest3
                  (replChar :: p.1, true)
            else
              let p := utf8DecodeRF n rest2
              (replChar :: p.1, true)
        else
          let p := utf8DecodeRF n rest
          (replChar :: p.1, true)
    else
      let p := utf8DecodeRF n rest
      (replChar :: p.1, true)

/-- See `utf8DecodeRF`. -/
def utf8DecodeR (bs : List Nat) : List Char × Bool := utf8DecodeRF (bs.length + 1) bs

/-- State machine for Python's universal-newline translation:
`afterCR = true` right after a translated `\r`, in which case one
immediately following `\n` is consumed silently. -/
def univNLAux (afterCR : Bool) : List Char → List Char
  | [] => []
  | c :: rest =>
    if afterCR && decide (c = '\n') then univNLAux false rest
    else if c = '\r' then '\n' :: univNLAux true rest
    else c :: univNLAux false rest

/-- Universal-newline translation performed by Python's text-mode
`open(..., 'r')` (default `newline=None`): each `\r\n` pair and each
lone `\r` becomes `\n`. -/
def univNewlines (cs : List Char) : List Char := univNLAux false cs

/-- Model of `open(full_path, 'r', encoding='utf-8', errors='replace').read()`
(source line 262): decode with replacement, then universal-newline
translation. -/
def pyReadText (bs : List Nat) : String := String.mk (univNewlines (utf8DecodeR bs).1)

/-! ## Glob matching (`fnmatch.fnmatch`)

`fnmatch` on POSIX is case-preserving; `*` matches any run of
characters (including `/`), `?` any single character.  Character
classes `[...]` are not exercised by any claim and are not modelled:
pattern characters other than `*` and `?` match literally. -/

/-- Fuel-based wildcard matcher.  Every recursive call strictly
decreases `ps.length + cs.length`, so fuel `ps.length + cs.length + 1`
(used by `globMatch` below) never runs out; the structural recursion
on the fuel keeps the function kernel-computable. -/
def globMatchF : Nat → List Char → List Char → Bool
  | 0, _, _ => false
  | _ + 1, [], [] => true
  | _ + 1, [], _ :: _ => false
  | n + 1, '*' :: ps, [] => globMatchF n ps []
  | n + 1, '*' :: ps, c :: cs => globMatchF n ps (c :: cs) || globMatchF n ('*' :: ps) cs
  | n + 1, '?' :: ps, _ :: cs => globMatchF n ps cs
  | _ + 1, '?' :: _, [] => false
  | n + 1, p :: ps, c :: cs => (p == c) && globMatchF n ps cs
  | _ + 1, _ :: _, [] => false

def globMatch (ps cs : List Char) : Bool := globMatchF (ps.length + cs.length + 1) ps cs

/-- `fnmatch.fnmatch(s, pat)` (modulo character classes, see above). -/
def fnmatch (s pat : String) : Bool := globMatch pat.data s.data

/-- Source lines 122-135: a path is excluded when any pattern matches
either its forward-slash relative path or its basename. -/
def is_excluded (patterns : List String) (relPath base : String) : Bool :=
  patterns.any (fun p => fnmatch relPath p || fnmatch base p)

/-! ## The filesystem model -/

mutual
/-- A directory: child directories (in OS listing order) and files (in
OS listing order). -/
inductive Dir where
  | mk (dirs : DirList) (files : List (String × FileData)) : Dir

/-- Named child directories of a directory, in OS listing order. -/
inductive DirList where
  | nil : DirList
  | cons (name : String) (d : Dir) (rest : DirList) : DirList
end

def DirList.names : DirList → List String
  | .nil => []
  | .cons n _ rest => n :: rest.names

def DirList.toList : DirList → List (String × Dir)
  | .nil => []
  | .cons n d rest => (n, d) :: rest.toList

/-- One materialised `os.walk` triple `(root, dirs, files)`; `path` is
the segment list of the directory relative to the walk root (`[]` for
the root itself). -/
structure WalkEntry where
  path : List String
  dirnames : List String
  files : List (String × FileData)
deriving DecidableEq, Repr

mutual
/-- `list(os.walk(root, topdown=True))` (source line 139): the full
pre-order listing, children in OS listing order.  Because the walk is
materialised before the processing loop runs, no later mutation can
prune or reorder it. -/
def walkDir (path : List String) : Dir → List WalkEntry
  | .mk ds fs => ⟨path, ds.names, fs⟩ :: walkList path ds

def walkList (path : List String) : DirList → List WalkEntry
  | .nil => []
  | .cons n d rest => walkDir (path ++ [n]) d ++ walkList path rest
end

/-! ## Root resolution (source lines 70-96) -/

/-- `os.path.basename`: the part after the last `/`. -/
def basename (p : String) : String :=
  String.mk (p.data.reverse.takeWhile (fun c => c != '/')).reverse

/-- `os.path.splitext(b)[0]`: drop the extension starting at the last
dot, provided that dot is preceded by a non-dot character (so names
made of leading dots, like `.bashrc`, keep their dot). -/
def splitextBase (b : String) : String :=
  let cs := b.data
  match cs.reverse.findIdx? (fun c => c == '.') with
  | none => b
  | some j =>
    let i := cs.length - 1 - j
    if (cs.takeWhile (fun c => c == '.')).length ≤ i then String.mk (cs.take i) else b

/-- `name.startswith('.')`. -/
def hiddenName (s : String) : Bool := s.data.head? == some '.'

/-- Source lines 75-78: non-hidden top-level directories of the
extraction directory, in OS listing order. -/
def potentialDirs : Dir → List (String × Dir)
  | .mk ds _ => ds.toList.filter (fun p => !hiddenName p.1)

/-- Source lines 80-96: if exactly one non-hidden top-level directory
exists, it becomes the root and its name the display name; otherwise
(zero or several) the extraction directory itself is the root and the
display name is the archive's base filename without extension.  This
never fails: it is a total function. -/
def resolveRoot (temp : Dir) (base : String) : Dir × String :=
  match potentialDirs temp with
  | [(n, d)] => (d, n)
  | _ => (temp, base)

/-! ## The walk / structure-building loop (source lines 141-197) -/

structure WalkAcc where
  structure_lines : List String
  files_to_process : List (String × FileData)
  total_dirs : Nat
  total_files : Nat
  excluded_dirs_count : Nat
  excluded_files_count : Nat
deriving DecidableEq, Repr

def initWalk : WalkAcc := ⟨[], [], 0, 0, 0, 0⟩

/-- `'  ' * level`. -/
def indentStr (level : Nat) : String := String.join (List.replicate level "  ")

/-- `os.path.relpath(...).replace(os.sep, '/')` for a non-root entry:
the segments joined with `/`. -/
def relPathStr (segs : List String) : String := String.intercalate "/" segs

/-- Source lines 192-195: header path of a file — bare name directly
under the root, else the `/`-joined relative path. -/
def headerPath (segs : List String) (fname : String) : String :=
  if segs.isEmpty then fname else relPathStr segs ++ "/" ++ fname

/-- Insertion into an ascending-by-name list (Python `list.sort()` on
the filename strings; names within one directory are distinct, so
stability is irrelevant). -/
def insertFile (x : String × FileData) : List (String × FileData) → List (String × FileData)
  | [] => [x]
  | y :: ys => if x.1 < y.1 then x :: y :: ys else y :: insertFile x ys

/-- `files.sort()` (source line 184): sort the kept files by name. -/
def sortFiles : List (String × FileData) → List (String × FileData)
  | [] => []
  | x :: xs => insertFile x (sortFiles xs)

/-- Source lines 187-197: the per-directory loop over the (filtered,
sorted) files — one structure line, one `total_files` increment and
one `files_to_process` record per file. -/
def emitFiles (segs : List String) (level : Nat) (acc : WalkAcc) :
    List (String × FileData) → WalkAcc
  | [] => acc
  | f :: rest =>
    emitFiles segs level
      { acc with
        structure_lines := acc.structure_lines ++ [indentStr (level + 1) ++ "|-- " ++ f.1 ++ "\n"]
        total_files := acc.total_files + 1
        files_to_process := acc.files_to_process ++ [(headerPath segs f.1, f.2)] } rest

/-- Source lines 141-197, one iteration of the loop over
`items_to_walk`.  Note: the entry's own exclusion check (line 143) is
skipped for the walk root; in the excluded branch only the entry's
*immediate* `dirs`/`files` lists are counted (lines 144-145) and the
`dirs[:] = []` / `files[:] = []` mutations have no effect on the
already-materialised walk; `dirs.sort()` (line 183) mutates a list
that is never read again and so has no observable effect. -/
def stepEntry (displayName : String) (patterns : List String) (acc : WalkAcc)
    (e : WalkEntry) : WalkAcc :=
  if !e.path.isEmpty && is_excluded patterns (relPathStr e.path) (e.path.getLastD "") then
    { acc with
      excluded_dirs_count := acc.excluded_dirs_count + 1 + e.dirnames.length
      excluded_files_count := acc.excluded_files_count + e.files.length }
  else
    let level := e.path.length
    let dirLine :=
      if e.path.isEmpty then displayName ++ "/\n"
      else indentStr level ++ "|-- " ++ e.path.getLastD "" ++ "/\n"
    let keptDirs := e.dirnames.filter
      (fun d => !is_excluded patterns (relPathStr (e.path ++ [d])) d)
    let keptFiles := e.files.filter
      (fun f => !is_excluded patterns (relPathStr (e.path ++ [f.1])) f.1)
    let acc1 :=
      { acc with
        structure_lines := acc.structure_lines ++ [dirLine]
        total_dirs := acc.total_dirs + 1
        excluded_dirs_count := acc.excluded_dirs_count + (e.dirnames.length - keptDirs.length)
        excluded_files_count := acc.excluded_files_count + (e.files.length - keptFiles.length) }
    emitFiles e.path level acc1 (sortFiles keptFiles)

/-- The loop over all materialised walk entries. -/
def runWalk (displayName : String) (patterns : List String) (acc : WalkAcc) :
    List WalkEntry → WalkAcc
  | [] => acc
  | e :: rest => runWalk displayName patterns (stepEntry displayName patterns acc e) rest

/-! ## The content-rendering loop (source lines 212-293) -/

structure ContentAcc where
  lines : List String
  processed_files : Nat
  skipped_binary : Nat
  skipped_size : Nat
  read_errors : Nat
deriving DecidableEq, Repr

def initContent : ContentAcc := ⟨[], 0, 0, 0, 0⟩

def beginMarker (h : String) : String := "--- BEGIN FILE: " ++ h ++ " ---\n"

def endMarker (h : String) : String := "\n--- END FILE: " ++ h ++ " ---\n\n"

/-- Notice of line 231; the interpolated `OSError` text is environment
data, modelled by a placeholder. -/
def sizeErrNotice : String := "[Error checking file size: <OSError>]\n"

/-- Notice of line 245; exception text modelled by a placeholder. -/
def probeErrNotice : String := "[Error checking if file is binary: <IOError>]\n"

/-- Notice of line 276; exception text modelled by a placeholder. -/
def readErrNotice : String := "[Error reading file: <IOError>]\n"

def binaryNotice : String := "[Binary file - content skipped]\n"

/-- The warning of line 270 — dead code in the source, kept here so we
can state that it never occurs in the output. -/
def utf8WarnNotice : String := "[WARNING: Could not read as UTF-8, read as Latin-1]\n"

/-- Python's `f"{bytes/1024:.1f}"`.  For `bytes < 2^53` the double
`bytes/1024` is the exact dyadic rational `bytes/1024`, so the
formatting is round-half-to-even of `bytes*10/1024` at the last
decimal place, computed here exactly on naturals. -/
def fmt1f (bytes : Nat) : String :=
  let num := bytes * 10
  let q := num / 1024
  let r := num % 1024
  let t :=
    if 2 * r < 1024 then q
    else if 1024 < 2 * r then q + 1
    else if q % 2 = 0 then q else q + 1
  toString (t / 10) ++ "." ++ toString (t % 10)

/-- Notice of line 225: cites the actual size (as `.1f` KB) and the
configured limit `max_file_size_kb`. -/
def sizeSkipNotice (fileSize kb : Nat) : String :=
  "[File content skipped - size (" ++ fmt1f fileSize ++
    " KB) exceeds limit (" ++ toString kb ++ " KB)]\n"

/-- Source line 241: binary iff a null byte occurs among the first
1024 raw bytes (`fb.read(1024)` reads `min(1024, size)` bytes). -/
def isBinary (bs : List Nat) : Bool := (bs.take 1024).contains 0

/-- Outcome of rendering one file: the chunks placed between the
BEGIN/END markers, and the increments to the `skipped_binary`,
`skipped_size` and `read_errors` counters. -/
structure BodyOut where
  chunks : List String
  dBin : Nat
  dSize : Nat
  dErr : Nat
deriving DecidableEq, Repr

/-- The body rendered after a successful size gate: binary probe
(lines 236-257), then text read (lines 258-280). -/
def restBody (d : FileData) : BodyOut :=
  if d.openErr then ⟨[probeErrNotice], 0, 0, 1⟩
  else if isBinary d.contents then ⟨[binaryNotice], 1, 0, 0⟩
  else if d.readErr then ⟨[readErrNotice], 0, 0, 1⟩
  else ⟨[pyReadText d.contents], 0, 0, 0⟩

/-- Per-file rendering, lines 217-282.  The size gate combines line 48
(`max_size_bytes = max_file_size_kb * 1024` when the KB value is
positive, else no limit) with the strict comparison
`file_size > max_size_bytes` of line 224.  The `UnicodeDecodeError`
handler of lines 265-273 is unreachable, because line 262 opens with
`errors='replace'`, which never raises `UnicodeDecodeError`; the text
branch therefore always yields `pyReadText`. -/
def fileBody (maxKB : Option Nat) (d : FileData) : BodyOut :=
  if d.sizeErr then ⟨[sizeErrNotice], 0, 0, 1⟩
  else
    match maxKB with
    | some k =>
      if 0 < k ∧ k * 1024 < d.contents.length then
        ⟨[sizeSkipNotice d.contents.length k], 0, 1, 0⟩
      else restBody d
    | none => restBody d

/-- The three chunks a single file contributes to `output_lines`:
BEGIN marker (line 219), body, END marker (appended on every control
path: lines 227, 233, 247, 252, 282). -/
def fileBlock (maxKB : Option Nat) (r : String × FileData) : List String :=
  beginMarker r.1 :: (fileBody maxKB r.2).chunks ++ [endMarker r.1]

/-- One iteration of the content loop (lines 217-282):
`processed_files` is incremented unconditionally (line 218) and the
file's block is appended to `output_lines`. -/
def processFile (maxKB : Option Nat) (acc : ContentAcc) (r : String × FileData) : ContentAcc :=
  let b := fileBody maxKB r.2
  { lines := acc.lines ++ (beginMarker r.1 :: b.chunks ++ [endMarker r.1])
    processed_files := acc.processed_files + 1
    skipped_binary := acc.skipped_binary + b.dBin
    skipped_size := acc.skipped_size + b.dSize
    read_errors := acc.read_errors + b.dErr }

/-- The loop over `files_to_process` (line 217). -/
def runContent (maxKB : Option Nat) (acc : ContentAcc) :
    List (String × FileData) → ContentAcc
  | [] => acc
  | r :: rest => runContent maxKB (processFile maxKB acc r) rest

/-! ## The whole operation (source lines 9-322) -/

/-- `zip_path.lower().endswith('.zip')` (source line 32), modelled
per-character with ASCII lowercasing (`Char.toLower`); only the final
four characters matter for the check. -/
def hasZipExt (p : String) : Bool :=
  (p.data.map Char.toLower).reverse.take 4 == ['p', 'i', 'z', '.']

structure RunResult where
  walk : WalkAcc
  content : ContentAcc
deriving DecidableEq, Repr

/-- The whole of `generate_repository_description`.  Environment
parameters: `zipExists` — `os.path.exists(zip_path)` (line 29);
`extractOk` — extraction neither hits `BadZipFile` nor another
exception (lines 56-66); `writeOk` — the final write of lines 299-307
succeeds; `temp` — the extracted tree.  `none` models returning
`False`, `some` models returning `True` (line 315) together with the
run's accumulated state.  Validation (lines 29-34) runs before
anything else: when it fails the result is `none` whatever the
remaining environment parameters hold. -/
def generate_repository_description (zipExists : Bool) (zipPath : String)
    (extractOk : Bool) (writeOk : Bool) (temp : Dir)
    (patterns : List String) (maxKB : Option Nat) : Option RunResult :=
  if !zipExists then none
  else if !hasZipExt zipPath then none
  else if !extractOk then none
  else
    let rd := resolveRoot temp (splitextBase (basename zipPath))
    let w := runWalk rd.2 patterns initWalk (walkDir [] rd.1)
    let c := runContent maxKB initContent w.files_to_process
    if !writeOk then none else some ⟨w, c⟩

/-- `max_size_bytes is not None and file_size > max_size_bytes`
(source lines 48 and 224) as a single test. -/
def overLimit (maxKB : Option Nat) (n : Nat) : Bool :=
  match maxKB with
  | some k => decide (0 < k) && decide (k * 1024 < n)
  | none => false

/-! ## Concrete example inputs used by individual claims -/

/-- A repository whose root holds one directory `build` containing a
subdirectory `sub` containing the file `deep.txt` (one byte, `x`). -/
def c1Tree : Dir :=
  .mk (.cons "build"
        (.mk (.cons "sub" (.mk .nil [("deep.txt", ⟨[120], false, false, false⟩)]) .nil) [])
        .nil) []

/-- A root with two empty subdirectories which the OS lists as
`b` before `a`. -/
def c2TreeBA : Dir := .mk (.cons "b" (.mk .nil []) (.cons "a" (.mk .nil []) .nil)) []

/-- The same two subdirectories listed as `a` before `b`. -/
def c2TreeAB : Dir := .mk (.cons "a" (.mk .nil []) (.cons "b" (.mk .nil []) .nil)) []

/-- A readable file whose bytes are `61 FF`: no null byte, but not
valid UTF-8 (`FF` is not a legal start byte). -/
def c3File : FileData := ⟨[0x61, 0xFF], false, false, false⟩

/-- A readable file whose bytes are `a\r\nb`: no null byte and valid
UTF-8. -/
def c4File : FileData := ⟨[97, 13, 10, 98], false, false, false⟩

/-- A readable text file of exactly 1024 bytes (all `a`). -/
def c6fit : FileData := ⟨List.replicate 1024 97, false, false, false⟩

/-- A readable text file of exactly 1025 bytes (all `a`). -/
def c6big : FileData := ⟨List.replicate 1025 97, false, false, false⟩

/-- A readable ASCII file containing `hello`. -/
def c4hello : FileData := ⟨[104, 101, 108, 108, 111], false, false, false⟩

/-- A file starting with a null byte. -/
def c5bin : FileData := ⟨[0, 65], false, false, false⟩

/-- A file whose size check raises `OSError`. -/
def c7errFile : FileData := ⟨[], true, false, false⟩

/-- An extraction directory with a single non-hidden top-level
directory `proj`. -/
def c8TempSingle : Dir :=
  .mk (.cons "proj" (.mk .nil [("a.txt", ⟨[104], false, false, false⟩)]) .nil) []

/-- An extraction directory with two top-level directories `x`, `y`. -/
def c8TempMulti : Dir := .mk (.cons "x" (.mk .nil []) (.cons "y" (.mk .nil []) .nil)) []

/-! ## Helper lemmas -/

theorem univNLAux_id (cs : List Char) (h : '\r' ∉ cs) : univNLAux false cs = cs := by
  induction cs with
  | nil => rfl
  | cons c rest ih =>
    have hc : ¬(c = '\r') := fun hc => h (by simp [hc])
    have hr : '\r' ∉ rest := fun hm => h (List.mem_cons_of_mem _ hm)
    simp [univNLAux, hc, ih hr]

/-- Universal-newline translation is the identity on carriage-return-free
text. -/
theorem univNewlines_id (cs : List Char) (h : '\r' ∉ cs) : univNewlines cs = cs :=
  univNLAux_id cs h

/-- When the size gate does not fire, rendering proceeds to the binary
probe and text read. -/
theorem fileBody_not_over (maxKB : Option Nat) (d : FileData)
    (hsz : d.sizeErr = false) (hover : overLimit maxKB d.contents.length = false) :
    fileBody maxKB d = restBody d := by
  cases maxKB with
  | none => simp [fileBody, hsz]
  | some k =>
    have hno : ¬(0 < k ∧ k * 1024 < d.contents.length) := by
      intro hand
      have : overLimit (some k) d.contents.length = true := by
        simp [overLimit, hand.1, hand.2]
      rw [this] at hover
      exact Bool.noConfusion hover
    simp [fileBody, hsz, hno]

/-- `isBinary` decides membership of the null byte in the 1024-byte
probe. -/
theorem isBinary_iff (bs : List Nat) : isBinary bs = true ↔ (0 : Nat) ∈ bs.take 1024 := by
  simp [isBinary, List.contains, List.elem_iff]

theorem emitFiles_counts (segs : List String) (level : Nat) (fs : List (String × FileData)) :
    ∀ acc : WalkAcc,
      (emitFiles segs level acc fs).total_files = acc.total_files + fs.length ∧
      (emitFiles segs level acc fs).files_to_process.length =
        acc.files_to_process.length + fs.length := by
  induction fs with
  | nil => intro acc; simp [emitFiles]
  | cons f rest ih =>
    intro acc
    simp only [emitFiles]
    refine ⟨?_, ?_⟩
    · rw [(ih _).1]; simp; omega
    · rw [(ih _).2]; simp; omega

theorem stepEntry_preserves (dn : String) (patterns : List String) (acc : WalkAcc)
    (e : WalkEntry) (hinv : acc.total_files = acc.files_to_process.length) :
    (stepEntry dn patterns acc e).total_files =
      (stepEntry dn patterns acc e).files_to_process.length := by
  simp only [stepEntry]
  split
  · simpa using hinv
  · rw [(emitFiles_counts _ _ _ _).1, (emitFiles_counts _ _ _ _).2]
    simpa using hinv

theorem runWalk_preserves (dn : String) (patterns : List String) (es : List WalkEntry) :
    ∀ acc : WalkAcc, acc.total_files = acc.files_to_process.length →
      (runWalk dn patterns acc es).total_files =
        (runWalk dn patterns acc es).files_to_process.length := by
  induction es with
  | nil => intro acc h; simpa [runWalk] using h
  | cons e rest ih =>
    intro acc h
    simp only [runWalk]
    exact ih _ (stepEntry_preserves dn patterns acc e h)

theorem runContent_spec (maxKB : Option Nat) (rs : List (String × FileData)) :
    ∀ acc : ContentAcc,
      (runContent maxKB acc rs).processed_files = acc.processed_files + rs.length ∧
      (runContent maxKB acc rs).lines = acc.lines ++ (rs.map (fileBlock maxKB)).flatten := by
  induction rs with
  | nil => intro acc; simp [runContent]
  | cons r rest ih =>
    intro acc
    simp only [runContent]
    refine ⟨?_, ?_⟩
    · rw [(ih _).1]; simp [processFile]; omega
    · rw [(ih _).2]; simp [processFile, fileBlock]

/-! ## The claims -/

/-- C1: evaluation of the walker at a failing input.  With exclusion
pattern `build` over a tree `build/sub/deep.txt`, the directory
`build` itself matches the pattern, yet its descendant directory `sub`
does not, and — because the walk was materialised before pruning — the
grand-child file `deep.txt` still becomes a FileRecord and `sub/`
still appears in the structure listing; the excluded-directory counter
moreover double-counts `build` (once at the parent's filter, once at
its own walk entry), giving 3 instead of the pruned subtree's 2.  This
refutes the claim that an excluded directory contributes no
descendants and that counters reflect the pruned subtree exactly. -/
theorem c1_excluded_dir_descendants_leak :
    is_excluded ["build"] "build" "build" = true ∧
    is_excluded ["build"] "build/sub" "sub" = false ∧
    (runWalk "repo" ["build"] initWalk (walkDir [] c1Tree)).files_to_process =
      [("build/sub/deep.txt", ⟨[120], false, false, false⟩)] ∧
    (runWalk "repo" ["build"] initWalk (walkDir [] c1Tree)).structure_lines =
      ["repo/\n", "    |-- sub/\n", "      |-- deep.txt\n"] ∧
    (runWalk "repo" ["build"] initWalk (walkDir [] c1Tree)).excluded_dirs_count = 3 := by
  decide

/-- C2: evaluation of the walker at a failing input.  With no
exclusions, a root holding the same two child directories in the two
possible OS listing orders yields two different structure listings, in
each case following the listing order (`dirs.sort()` on line 183
mutates a list the materialised walk never reads).  This refutes the
claim that remaining child directories are emitted in lexicographic
order and that output is independent of the filesystem listing
order. -/
theorem c2_directory_order_follows_listing :
    (runWalk "repo" [] initWalk (walkDir [] c2TreeBA)).structure_lines =
      ["repo/\n", "  |-- b/\n", "  |-- a/\n"] ∧
    (runWalk "repo" [] initWalk (walkDir [] c2TreeAB)).structure_lines =
      ["repo/\n", "  |-- a/\n", "  |-- b/\n"] ∧
    ¬ (runWalk "repo" [] initWalk (walkDir [] c2TreeBA)).structure_lines =
        (runWalk "repo" [] initWalk (walkDir [] c2TreeAB)).structure_lines := by
  decide

/-- C3: evaluation of the renderer at a failing input.  The file bytes
`61 FF` are not valid UTF-8, yet the rendered content is `a` followed
by U+FFFD — the invalid byte is replaced (garbled), no Latin-1
fallback happens (Latin-1 would give `a` followed by U+00FF), no
warning is emitted, and no read error is counted: line 262 opens with
`errors='replace'`, so the `except UnicodeDecodeError` fallback of
lines 265-273 is unreachable.  This refutes the claim that a failed
strict UTF-8 decode falls back to Latin-1 with a warning and that
bytes are never replaced. -/
theorem c3_replace_garbles_no_fallback :
    (processFile none initContent ("f.txt", c3File)).lines =
      [beginMarker "f.txt", String.mk ['a', replChar], endMarker "f.txt"] ∧
    utf8WarnNotice ∉ (processFile none initContent ("f.txt", c3File)).lines ∧
    (processFile none initContent ("f.txt", c3File)).read_errors = 0 ∧
    ¬ String.mk ['a', replChar] = String.mk ['a', Char.ofNat 0xFF] := by
  decide

/-- C4 counterexample: the file `a\r\nb` has no null byte and is
valid UTF-8, yet its decoded content `a\r\nb` does not appear between
the markers — text-mode reading applies universal-newline translation
and emits `a\nb` instead. -/
theorem c4_crlf_counterexample :
    utf8DecodeR c4File.contents = ("a\r\nb".data, false) ∧
    isBinary c4File.contents = false ∧
    (processFile none initContent ("f.txt", c4File)).lines =
      [beginMarker "f.txt", "a\nb", endMarker "f.txt"] ∧
    "a\r\nb" ∉ (processFile none initContent ("f.txt", c4File)).lines ∧
    ¬ ("a\nb" : String) = "a\r\nb" := by
  decide

/-- C4 (amended): for an included, readable file with no null byte in
its first 1024 bytes, within the size limit, whose bytes decode as
valid UTF-8, the content appearing between its BEGIN/END markers is
the decoded content *after universal-newline translation* (each
`\r\n` pair and each lone `\r` becomes `\n`); in particular content
free of carriage returns appears verbatim. -/
theorem c4_roundtrip_newline_translated (maxKB : Option Nat) (acc : ContentAcc)
    (h : String) (d : FileData)
    (hsz : d.sizeErr = false) (hop : d.openErr = false) (hrd : d.readErr = false)
    (hnull : (0 : Nat) ∉ d.contents.take 1024)
    (hover : overLimit maxKB d.contents.length = false)
    (_hvalid : (utf8DecodeR d.contents).2 = false) :
    (processFile maxKB acc (h, d)).lines =
      acc.lines ++ [beginMarker h, String.mk (univNewlines (utf8DecodeR d.contents).1),
        endMarker h] ∧
    ('\r' ∉ (utf8DecodeR d.contents).1 →
      String.mk (univNewlines (utf8DecodeR d.contents).1) =
        String.mk (utf8DecodeR d.contents).1) := by
  have hbin : isBinary d.contents = false :=
    Bool.eq_false_iff.2 (fun hb => hnull ((isBinary_iff _).1 hb))
  constructor
  · simp only [processFile]
    rw [fileBody_not_over maxKB d hsz hover]
    simp [restBody, hop, hbin, hrd, pyReadText]
  · intro hcr
    rw [univNewlines_id _ hcr]

/-- C4 witness: the five-byte ASCII file `hello` (no carriage
returns) is rendered verbatim between its markers. -/
theorem c4_roundtrip_witness :
    (processFile none initContent ("hello.txt", c4hello)).lines =
      initContent.lines ++ [beginMarker "hello.txt",
        String.mk (univNewlines (utf8DecodeR c4hello.contents).1), endMarker "hello.txt"] ∧
    String.mk (univNewlines (utf8DecodeR c4hello.contents).1) =
      String.mk (utf8DecodeR c4hello.contents).1 :=
  ⟨(c4_roundtrip_newline_translated none initContent "hello.txt" c4hello rfl rfl rfl
      (by decide) rfl (by decide)).1,
   (c4_roundtrip_newline_translated none initContent "hello.txt" c4hello rfl rfl rfl
      (by decide) rfl (by decide)).2 (by decide)⟩

/-- C5: for an included, readable file within the size limit, a null
byte among the first 1024 raw bytes makes the renderer emit the
binary-skip notice as the file's whole body and increment the
skipped-binary counter by one; without such a byte the counter is
untouched. -/
theorem c5_binary_probe (maxKB : Option Nat) (acc : ContentAcc) (h : String) (d : FileData)
    (hsz : d.sizeErr = false) (hop : d.openErr = false)
    (hover : overLimit maxKB d.contents.length = false) :
    ((0 : Nat) ∈ d.contents.take 1024 →
      processFile maxKB acc (h, d) =
        { lines := acc.lines ++ [beginMarker h, binaryNotice, endMarker h]
          processed_files := acc.processed_files + 1
          skipped_binary := acc.skipped_binary + 1
          skipped_size := acc.skipped_size
          read_errors := acc.read_errors }) ∧
    ((0 : Nat) ∉ d.contents.take 1024 →
      (processFile maxKB acc (h, d)).skipped_binary = acc.skipped_binary) := by
  constructor
  · intro hm
    have hb : isBinary d.contents = true := (isBinary_iff _).2 hm
    simp only [processFile]
    rw [fileBody_not_over maxKB d hsz hover]
    simp [restBody, hop, hb]
  · intro hm
    have hb : isBinary d.contents = false :=
      Bool.eq_false_iff.2 (fun ht => hm ((isBinary_iff _).1 ht))
    simp only [processFile]
    rw [fileBody_not_over maxKB d hsz hover]
    cases hr : d.readErr <;> simp [restBody, hop, hb, hr]

/-- C5 witness: a file starting with a null byte is reported binary
with the counter at one; a one-byte ASCII file leaves the counter at
zero. -/
theorem c5_binary_probe_witness :
    processFile none initContent ("b.dat", c5bin) =
      { lines := [beginMarker "b.dat", binaryNotice, endMarker "b.dat"]
        processed_files := 1
        skipped_binary := 1
        skipped_size := 0
        read_errors := 0 } ∧
    (processFile none initContent ("t.txt", ⟨[65], false, false, false⟩)).skipped_binary = 0 := by
  constructor
  · have hc := (c5_binary_probe none initContent "b.dat" c5bin rfl rfl rfl).1 (by decide)
    simpa [initContent] using hc
  · exact (c5_binary_probe none initContent "t.txt" ⟨[65], false, false, false⟩
      rfl rfl rfl).2 (by decide)

/-- C6: with a positive limit of `k` KB, a readable non-binary file of
exactly `k*1024` bytes has its content included, while any file of
more than `k*1024` bytes is skipped — its body is the notice citing
the actual size and the limit, the oversized counter is incremented,
and its content is never rendered. -/
theorem c6_size_boundary (k : Nat) (hk : 0 < k) (acc : ContentAcc) (h : String) (d : FileData)
    (hsz : d.sizeErr = false) :
    (d.contents.length = k * 1024 → d.openErr = false → d.readErr = false →
        isBinary d.contents = false →
      processFile (some k) acc (h, d) =
        { lines := acc.lines ++ [beginMarker h, pyReadText d.contents, endMarker h]
          processed_files := acc.processed_files + 1
          skipped_binary := acc.skipped_binary
          skipped_size := acc.skipped_size
          read_errors := acc.read_errors }) ∧
    (k * 1024 < d.contents.length →
      processFile (some k) acc (h, d) =
        { lines := acc.lines ++ [beginMarker h, sizeSkipNotice d.contents.length k, endMarker h]
          processed_files := acc.processed_files + 1
          skipped_binary := acc.skipped_binary
          skipped_size := acc.skipped_size + 1
          read_errors := acc.read_errors }) := by
  constructor
  · intro hlen hop hrd hbin
    have hover : overLimit (some k) d.contents.length = false := by
      simp [overLimit, hlen]
    simp only [processFile]
    rw [fileBody_not_over (some k) d hsz hover]
    simp [restBody, hop, hbin, hrd]
  · intro hgt
    have hfb : fileBody (some k) d = ⟨[sizeSkipNotice d.contents.length k], 0, 1, 0⟩ := by
      simp [fileBody, hsz, hk, hgt]
    simp only [processFile, hfb]
    simp

set_option maxRecDepth 100000 in
/-- C6 witness: with a 1 KB limit, the 1024-byte file is rendered and
the 1025-byte file is skipped with the notice `size (1.0 KB) exceeds
limit (1 KB)`. -/
theorem c6_size_boundary_witness :
    processFile (some 1) initContent ("fit.txt", c6fit) =
      { lines := [beginMarker "fit.txt", pyReadText c6fit.contents, endMarker "fit.txt"]
        processed_files := 1
        skipped_binary := 0
        skipped_size := 0
        read_errors := 0 } ∧
    processFile (some 1) initContent ("big.txt", c6big) =
      { lines := [beginMarker "big.txt", sizeSkipNotice 1025 1, endMarker "big.txt"]
        processed_files := 1
        skipped_binary := 0
        skipped_size := 1
        read_errors := 0 } ∧
    sizeSkipNotice 1025 1 =
      "[File content skipped - size (1.0 KB) exceeds limit (1 KB)]\n" := by
  refine ⟨?_, ?_, by decide⟩
  · have hc := (c6_size_boundary 1 (by decide) initContent "fit.txt" c6fit rfl).1
      (by decide) rfl rfl (by decide)
    simpa [initContent] using hc
  · have hc := (c6_size_boundary 1 (by decide) initContent "big.txt" c6big rfl).2 (by decide)
    simpa [initContent, c6big] using hc

/-- C7: each of the three per-file I/O failure points (size check,
binary probe, content read) yields exactly one read-error increment
and an inline notice between that file's BEGIN/END markers; the loop
then continues with the remaining files, and the overall operation
still reports success. -/
theorem c7_per_file_failures_contained (maxKB : Option Nat) (acc : ContentAcc) (h : String)
    (d : FileData) (rest : List (String × FileData)) (zipPath : String) (temp : Dir)
    (patterns : List String) (hzip : hasZipExt zipPath = true) :
    (d.sizeErr = true →
      processFile maxKB acc (h, d) =
        { lines := acc.lines ++ [beginMarker h, sizeErrNotice, endMarker h]
          processed_files := acc.processed_files + 1
          skipped_binary := acc.skipped_binary
          skipped_size := acc.skipped_size
          read_errors := acc.read_errors + 1 }) ∧
    (d.sizeErr = false → overLimit maxKB d.contents.length = false → d.openErr = true →
      processFile maxKB acc (h, d) =
        { lines := acc.lines ++ [beginMarker h, probeErrNotice, endMarker h]
          processed_files := acc.processed_files + 1
          skipped_binary := acc.skipped_binary
          skipped_size := acc.skipped_size
          read_errors := acc.read_errors + 1 }) ∧
    (d.sizeErr = false → overLimit maxKB d.contents.length = false → d.openErr = false →
        isBinary d.contents = false → d.readErr = true →
      processFile maxKB acc (h, d) =
        { lines := acc.lines ++ [beginMarker h, readErrNotice, endMarker h]
          processed_files := acc.processed_files + 1
          skipped_binary := acc.skipped_binary
          skipped_size := acc.skipped_size
          read_errors := acc.read_errors + 1 }) ∧
    runContent maxKB acc ((h, d) :: rest) =
      runContent maxKB (processFile maxKB acc (h, d)) rest ∧
    (generate_repository_description true zipPath true true temp patterns maxKB).isSome
      = true := by
  refine ⟨?_, ?_, ?_, rfl, ?_⟩
  · intro hse
    simp only [processFile]
    simp [fileBody, hse]
  · intro hse hover hop
    simp only [processFile]
    rw [fileBody_not_over maxKB d hse hover]
    simp [restBody, hop]
  · intro hse hover hop hbin hrd
    simp only [processFile]
    rw [fileBody_not_over maxKB d hse hover]
    simp [restBody, hop, hbin, hrd]
  · simp [generate_repository_description, hzip]

/-- C7 witness: a file whose size check fails gets an inline notice
and one read-error count, and a run over an archive holding only that
file still succeeds. -/
theorem c7_failures_witness :
    processFile none initContent ("f.txt", c7errFile) =
      { lines := [beginMarker "f.txt", sizeErrNotice, endMarker "f.txt"]
        processed_files := 1
        skipped_binary := 0
        skipped_size := 0
        read_errors := 1 } ∧
    (generate_repository_description true "r.zip" true true
        (Dir.mk .nil [("f.txt", c7errFile)]) [] none).isSome = true := by
  have hc := c7_per_file_failures_contained none initContent "f.txt" c7errFile [] "r.zip"
      (Dir.mk .nil [("f.txt", c7errFile)]) [] (by decide)
  exact ⟨by simpa [initContent] using hc.1 rfl, hc.2.2.2.2⟩

/-- C8: among the non-hidden top-level directories of the extraction
directory, exactly one makes it the root with its own name as display
name; zero or several make the extraction directory itself the root
with the archive's base filename (without extension) as display name;
resolution is a total function and never fails. -/
theorem c8_root_resolution (temp : Dir) (zipPath : String) :
    (∀ n d, potentialDirs temp = [(n, d)] →
      resolveRoot temp (splitextBase (basename zipPath)) = (d, n)) ∧
    ((potentialDirs temp).length ≠ 1 →
      resolveRoot temp (splitextBase (basename zipPath)) =
        (temp, splitextBase (basename zipPath))) := by
  constructor
  · intro n d hpd
    simp [resolveRoot, hpd]
  · intro hne
    rcases hpd : potentialDirs temp with _ | ⟨⟨n, d⟩, _ | ⟨y, tail⟩⟩
    · simp [resolveRoot, hpd]
    · refine absurd ?_ hne
      rw [hpd]
      rfl
    · simp [resolveRoot, hpd]

/-- C8 witness: a lone `proj` directory becomes the root; two
top-level directories fall back to the extraction root with the
archive base name. -/
theorem c8_root_resolution_witness :
    resolveRoot c8TempSingle (splitextBase (basename "archive.zip")) =
      (Dir.mk .nil [("a.txt", ⟨[104], false, false, false⟩)], "proj") ∧
    resolveRoot c8TempMulti (splitextBase (basename "archive.zip")) =
      (c8TempMulti, splitextBase (basename "archive.zip")) :=
  ⟨(c8_root_resolution c8TempSingle "archive.zip").1 "proj"
      (Dir.mk .nil [("a.txt", ⟨[104], false, false, false⟩)]) rfl,
   (c8_root_resolution c8TempMulti "archive.zip").2 (by decide)⟩

/-- C9: when the input path does not exist or does not end
case-insensitively in `.zip`, the operation returns failure whatever
the extraction, tree and write environment would have been — the
validation of lines 29-34 runs before extraction, temporary-directory
use or output writing. -/
theorem c9_validation_rejects (zipExists : Bool) (zipPath : String)
    (extractOk writeOk : Bool) (temp : Dir) (patterns : List String) (maxKB : Option Nat)
    (hbad : zipExists = false ∨ hasZipExt zipPath = false) :
    generate_repository_description zipExists zipPath extractOk writeOk temp patterns maxKB
      = none := by
  rcases hbad with hb | hb
  · simp [generate_repository_description, hb]
  · cases zipExists
    · simp [generate_repository_description]
    · simp [generate_repository_description, hb]

/-- C9 witness: a `.tar` path and a nonexistent path are both
rejected. -/
theorem c9_validation_witness :
    generate_repository_description true "repo.tar" true true (Dir.mk .nil []) [] none
      = none ∧
    generate_repository_description false "repo.zip" true true (Dir.mk .nil []) [] none
      = none :=
  ⟨c9_validation_rejects true "repo.tar" true true (Dir.mk .nil []) [] none
      (Or.inr (by decide)),
   c9_validation_rejects false "repo.zip" true true (Dir.mk .nil []) [] none (Or.inl rfl)⟩

/-- C10: over every walk and option set, the processed-files counter
(printed as `Included Files`) equals the number of FileRecords, which
equals the structure section's included-files tally, and the content
section is exactly the concatenation of the per-file blocks — each
record contributing its BEGIN marker, body, and END marker, once. -/
theorem c10_counters_markers (dn : String) (patterns : List String)
    (entries : List WalkEntry) (maxKB : Option Nat) :
    (runContent maxKB initContent
        (runWalk dn patterns initWalk entries).files_to_process).processed_files =
      (runWalk dn patterns initWalk entries).files_to_process.length ∧
    (runWalk dn patterns initWalk entries).total_files =
      (runWalk dn patterns initWalk entries).files_to_process.length ∧
    (runContent maxKB initContent
        (runWalk dn patterns initWalk entries).files_to_process).lines =
      ((runWalk dn patterns initWalk entries).files_to_process.map
          (fileBlock maxKB)).flatten := by
  refine ⟨?_, ?_, ?_⟩
  · have hs := (runContent_spec maxKB
      (runWalk dn patterns initWalk entries).files_to_process initContent).1
    simpa [initContent] using hs
  · exact runWalk_preserves dn patterns entries initWalk rfl
  · have hs := (runContent_spec maxKB
      (runWalk dn patterns initWalk entries).files_to_process initContent).2
    simpa [initContent] using hs

end RepoToTxt
